import Mathlib

/-!
Verification of the gsound binding layer (src/gsound/gsound-context.c).

The repository is a thin shim over the external libcanberra library.  The
shim's own logic — variadic/hash-table attribute marshaling, error-code
translation via `test_return`, the GTask-based asynchronous completion
plumbing of `play_full`, cancellation bridging, and `GInitable`
initialization — is embedded below, translated function by function from
src/gsound/gsound-context.c.

The external collaborators (libcanberra calls, GLib ambient process
identity) are modelled by an environment `CAEnv` of result-code oracles:
each libcanberra call's integer result is drawn from the environment, and a
property list is modelled as the list of (key, value) entries recorded by
successful `ca_proplist_sets` calls.  Side effects are made explicit as an
event trace.
-/

/-- `CA_SUCCESS` from canberra.h. -/
def CA_SUCCESS : Int := 0

/-- `CA_ERROR_INVALID` from canberra.h (= `GSOUND_ERROR_INVALID` in
gsound-context.h). -/
def CA_ERROR_INVALID : Int := -2

/-- `CA_PROP_APPLICATION_NAME` (= `GSOUND_ATTR_APPLICATION_NAME`,
gsound-attr.h line 300). -/
def CA_PROP_APPLICATION_NAME : String := "application.name"

/-- `CA_PROP_APPLICATION_ID` (= `GSOUND_ATTR_APPLICATION_ID`,
gsound-attr.h line 312). -/
def CA_PROP_APPLICATION_ID : String := "application.id"

/-- A GError: numeric code plus human-readable message, as set by
`g_set_error_literal` in `test_return`. -/
structure GError where
  code : Int
  message : String
deriving DecidableEq, Repr

/-- A libcanberra property list, modelled as the ordered list of entries
recorded by successful `ca_proplist_sets` calls.  (libcanberra replaces an
existing key on re-set; on the unique-key inputs the claims range over the
two semantics coincide, so the append model is used.) -/
abbrev ca_proplist := List (String × String)

/-- Environment of oracles for the external libcanberra / GLib calls.
Each field gives the result an external call returns; calls whose result
can depend on the data passed take that data as an argument. -/
structure CAEnv where
  /-- Result code of `ca_proplist_create`. -/
  proplist_create_code : Int
  /-- Result code of `ca_proplist_sets pl key value` (entry recorded iff
  success). -/
  sets_code : String → String → Int
  /-- Result code of `ca_context_create`. -/
  create_code : Int
  /-- Handle produced by a successful `ca_context_create`. -/
  fresh_handle : Nat
  /-- Result code of `ca_context_open`. -/
  open_code : Int
  /-- Result code of `ca_context_set_driver`. -/
  set_driver_code : String → Int
  /-- Result code of `ca_context_change_props_full` on a given proplist. -/
  change_props_code : ca_proplist → Int
  /-- Result code of `ca_context_play_full` on a given proplist. -/
  play_code : ca_proplist → Int
  /-- Result code of `ca_context_cache_full` on a given proplist. -/
  cache_code : ca_proplist → Int
  /-- Error code eventually delivered to the play-full completion callback
  when the play request was accepted (CA_SUCCESS, an error, or
  CA_ERROR_CANCELED on cancellation). -/
  finish_code : Int
  /-- `ca_strerror`: human-readable message for a result code. -/
  strerror : Int → String
  /-- `g_get_application_name ()`. -/
  app_name : String
  /-- Application id of `g_application_get_default ()`, `none` when no
  default GApplication is registered. -/
  app_id : Option String

/-- `ca_proplist_sets`: external call; on success the entry is recorded,
on failure the proplist is unchanged (libcanberra leaves the list
untouched when it rejects a key). -/
def ca_proplist_sets (env : CAEnv) (pl : ca_proplist) (key value : String) :
    Int × ca_proplist :=
  let res := env.sets_code key value
  if res = CA_SUCCESS then (res, pl ++ [(key, value)]) else (res, pl)

/-- `g_direct_hash`: `GPOINTER_TO_UINT` of the pointer, i.e. the pointer
value truncated to an unsigned 32-bit integer; `NULL` hashes to 0.  A
GCancellable is modelled by its pointer value, `none` standing for NULL. -/
def g_direct_hash : Option Nat → Nat
  | none => 0
  | some p => p % 2 ^ 32

/-- A GSoundContext: object identity plus the owned `ca_context` handle
(`none` = unset). -/
structure GSoundContext where
  id : Nat
  ca : Option Nat
deriving DecidableEq, Repr

/-- A GHashTable of attributes: entry list in iteration order, plus a
reference count. -/
structure GHashTable where
  entries : List (String × String)
  refcount : Nat
deriving DecidableEq, Repr

/-- Observable side effects of one shim call: the external libcanberra
calls it makes and the GTask lifecycle steps, in program order (the
asynchronous completion-callback events are appended at the point the
underlying library delivers them). -/
inductive Event where
  | proplistCreate
  | proplistDestroy
  | contextCreate
  | contextDestroy
  | contextOpen
  | setDriver (driver : String)
  | changeProps (pl : ca_proplist)
  | caPlayFull (cancel_id : Nat) (pl : ca_proplist)
  | caCacheFull (pl : ca_proplist)
  | caCancel (cancel_id : Nat)
  | cancellableConnected
  | taskCreated
  | taskResolvedOk
  | taskResolvedError (e : GError)
  | taskUnref
deriving DecidableEq, Repr

/-- `test_return` (gsound-context.c lines 178-186): translate a libcanberra
result code; TRUE on `CA_SUCCESS`, otherwise FALSE with a GError carrying
the code verbatim and the `ca_strerror` message. -/
def test_return (env : CAEnv) (code : Int) : Bool × Option GError :=
  if code = CA_SUCCESS then (true, none)
  else (false, some { code := code, message := env.strerror code })

/-- `hash_table_to_prop_list` (lines 188-201): ref the table, iterate all
entries calling `ca_proplist_sets` (result codes ignored — the calls are
made for effect), unref the table.  Returns the table (with its refcount
bumped and restored) and the extended proplist. -/
def hash_table_to_prop_list (env : CAEnv) (ht : GHashTable) (pl : ca_proplist) :
    GHashTable × ca_proplist :=
  let ht1 : GHashTable := { ht with refcount := ht.refcount + 1 }
  let pl1 := ht1.entries.foldl (fun acc kv => (ca_proplist_sets env acc kv.1 kv.2).2) pl
  let ht2 : GHashTable := { ht1 with refcount := ht1.refcount - 1 }
  (ht2, pl1)

/-- `var_args_to_prop_list` (lines 203-226): walk the NULL-terminated
va_list (an element is `some s` for a string pointer, `none` for NULL).
A NULL key ends the walk with `CA_SUCCESS`; a key with a NULL value yields
`CA_ERROR_INVALID`; a failing `ca_proplist_sets` yields its code.  (The C
contract requires NULL termination; the empty-list fallthrough mirrors the
function's final `return CA_SUCCESS`.) -/
def var_args_to_prop_list (env : CAEnv) :
    List (Option String) → ca_proplist → Int × ca_proplist
  | [], pl => (CA_SUCCESS, pl)
  | none :: _, pl => (CA_SUCCESS, pl)
  | [some _], pl => (CA_ERROR_INVALID, pl)
  | some _ :: none :: _, pl => (CA_ERROR_INVALID, pl)
  | some key :: some val :: rest, pl =>
    let r := ca_proplist_sets env pl key val
    if r.1 = CA_SUCCESS then var_args_to_prop_list env rest r.2
    else (r.1, r.2)

/-- Encoding of an alternating key/value pair list as the corresponding
va_list contents (without the terminating NULL). -/
def encodePairs (kvs : List (String × String)) : List (Option String) :=
  kvs.flatMap fun kv => [some kv.1, some kv.2]

/-- `gsound_context_open` (lines 292-298). -/
def gsound_context_open (env : CAEnv) (_self : GSoundContext) :
    (Bool × Option GError) × List Event :=
  (test_return env env.open_code, [Event.contextOpen])

/-- `gsound_context_set_driver` (lines 314-322). -/
def gsound_context_set_driver (env : CAEnv) (_self : GSoundContext)
    (driver : String) : (Bool × Option GError) × List Event :=
  (test_return env (env.set_driver_code driver), [Event.setDriver driver])

/-- `gsound_context_set_attributes` (lines 339-362): create a proplist
(early return on failure), marshal the va_list (result code DISCARDED —
line 354 ignores the return value), change props, destroy the proplist,
translate the change-props result. -/
def gsound_context_set_attributes (env : CAEnv) (_self : GSoundContext)
    (args : List (Option String)) : (Bool × Option GError) × List Event :=
  if env.proplist_create_code ≠ CA_SUCCESS then
    (test_return env env.proplist_create_code, [Event.proplistCreate])
  else
    let pl := (var_args_to_prop_list env args []).2
    (test_return env (env.change_props_code pl),
     [Event.proplistCreate, Event.changeProps pl, Event.proplistDestroy])

/-- `gsound_context_set_attributesv` (lines 381-402): as the variadic
variant but marshaling from the hash table; also returns the caller's
table as left by `hash_table_to_prop_list`. -/
def gsound_context_set_attributesv (env : CAEnv) (_self : GSoundContext)
    (attrs : GHashTable) : (Bool × Option GError) × GHashTable × List Event :=
  if env.proplist_create_code ≠ CA_SUCCESS then
    (test_return env env.proplist_create_code, attrs, [Event.proplistCreate])
  else
    let r := hash_table_to_prop_list env attrs []
    (test_return env (env.change_props_code r.2), r.1,
     [Event.proplistCreate, Event.changeProps r.2, Event.proplistDestroy])

/-- `gsound_context_play_simple` (lines 422-454): create a proplist (early
return on failure), marshal the va_list (result DISCARDED — line 438),
issue `ca_context_play_full` tagged with `g_direct_hash (cancellable)` and
no callback, connect the cancellation listener iff a cancellable was
supplied, destroy the proplist, translate the play result. -/
def gsound_context_play_simple (env : CAEnv) (_self : GSoundContext)
    (cancellable : Option Nat) (args : List (Option String)) :
    (Bool × Option GError) × List Event :=
  if env.proplist_create_code ≠ CA_SUCCESS then
    (test_return env env.proplist_create_code, [Event.proplistCreate])
  else
    let pl := (var_args_to_prop_list env args []).2
    (test_return env (env.play_code pl),
     [Event.proplistCreate, Event.caPlayFull (g_direct_hash cancellable) pl]
       ++ (if cancellable.isSome then [Event.cancellableConnected] else [])
       ++ [Event.proplistDestroy])

/-- `gsound_context_play_simplev` (lines 477-504): hash-table variant of
`play_simple`; also returns the caller's table. -/
def gsound_context_play_simplev (env : CAEnv) (_self : GSoundContext)
    (attrs : GHashTable) (cancellable : Option Nat) :
    (Bool × Option GError) × GHashTable × List Event :=
  if env.proplist_create_code ≠ CA_SUCCESS then
    (test_return env env.proplist_create_code, attrs, [Event.proplistCreate])
  else
    let r := hash_table_to_prop_list env attrs []
    (test_return env (env.play_code r.2), r.1,
     [Event.proplistCreate, Event.caPlayFull (g_direct_hash cancellable) r.2]
       ++ (if cancellable.isSome then [Event.cancellableConnected] else [])
       ++ [Event.proplistDestroy])

/-- `gsound_context_cache` (lines 670-693). -/
def gsound_context_cache (env : CAEnv) (_self : GSoundContext)
    (args : List (Option String)) : (Bool × Option GError) × List Event :=
  if env.proplist_create_code ≠ CA_SUCCESS then
    (test_return env env.proplist_create_code, [Event.proplistCreate])
  else
    let pl := (var_args_to_prop_list env args []).2
    (test_return env (env.cache_code pl),
     [Event.proplistCreate, Event.caCacheFull pl, Event.proplistDestroy])

/-- Terminal resolution of a GTask: `g_task_return_boolean` stores a
boolean, `g_task_return_error` / `g_task_return_new_error` store a
GError. -/
inductive TaskOutcome where
  | ok (value : Bool)
  | err (e : GError)
deriving DecidableEq, Repr

/-- A GTask: its source object (the context's identity passed to
`g_task_new`) and its resolution, `none` while still pending. -/
structure GTask where
  source : Nat
  outcome : Option TaskOutcome
deriving DecidableEq, Repr

/-- `on_ca_play_full_finished` (lines 228-248): the completion callback
libcanberra invokes once for an accepted play request.  A non-success code
resolves the task with a GError carrying the code verbatim and the
`ca_strerror` message; success resolves it with TRUE.  The task reference
is dropped either way. -/
def on_ca_play_full_finished (env : CAEnv) (error_code : Int) (task : GTask) :
    GTask × List Event :=
  if error_code ≠ CA_SUCCESS then
    let e : GError := { code := error_code, message := env.strerror error_code }
    ({ task with outcome := some (TaskOutcome.err e) },
     [Event.taskResolvedError e, Event.taskUnref])
  else
    ({ task with outcome := some (TaskOutcome.ok true) },
     [Event.taskResolvedOk, Event.taskUnref])

/-- `on_cancellable_cancelled` (lines 250-255): forward a cancellation
signal into `ca_context_cancel` with the id `g_direct_hash (cancellable)`.
The cancellable here is an actual object (the signal's emitter). -/
def on_cancellable_cancelled (_self : GSoundContext) (cancellable : Nat) :
    List Event :=
  [Event.caCancel (g_direct_hash (some cancellable))]

/-- `gsound_context_play_full` (lines 524-570): create the GTask FIRST,
then the proplist (creation failure resolves the task with the translated
error), marshal the va_list (result DISCARDED — line 548), issue
`ca_context_play_full` with `on_ca_play_full_finished` as callback,
connect the cancellation listener iff a cancellable was supplied, destroy
the proplist; an immediate non-success play result resolves the task with
the translated error, otherwise libcanberra later invokes the callback
exactly once with `env.finish_code` (its delivery is appended to the
trace).  Returns the task in its final state plus the trace. -/
def gsound_context_play_full (env : CAEnv) (self : GSoundContext)
    (cancellable : Option Nat) (args : List (Option String)) :
    GTask × List Event :=
  let task : GTask := { source := self.id, outcome := none }
  if env.proplist_create_code ≠ CA_SUCCESS then
    let e : GError := { code := env.proplist_create_code,
                        message := env.strerror env.proplist_create_code }
    ({ task with outcome := some (TaskOutcome.err e) },
     [Event.taskCreated, Event.proplistCreate,
      Event.taskResolvedError e, Event.taskUnref])
  else
    let pl := (var_args_to_prop_list env args []).2
    let res := env.play_code pl
    let ev :=
      [Event.taskCreated, Event.proplistCreate,
       Event.caPlayFull (g_direct_hash cancellable) pl]
        ++ (if cancellable.isSome then [Event.cancellableConnected] else [])
        ++ [Event.proplistDestroy]
    if res ≠ CA_SUCCESS then
      let e : GError := { code := res, message := env.strerror res }
      ({ task with outcome := some (TaskOutcome.err e) },
       ev ++ [Event.taskResolvedError e, Event.taskUnref])
    else
      let fin := on_ca_play_full_finished env env.finish_code task
      (fin.1, ev ++ fin.2)

/-- `gsound_context_play_fullv` (lines 592-635): hash-table variant of
`play_full`; also returns the caller's table. -/
def gsound_context_play_fullv (env : CAEnv) (self : GSoundContext)
    (attrs : GHashTable) (cancellable : Option Nat) :
    GTask × GHashTable × List Event :=
  let task : GTask := { source := self.id, outcome := none }
  if env.proplist_create_code ≠ CA_SUCCESS then
    let e : GError := { code := env.proplist_create_code,
                        message := env.strerror env.proplist_create_code }
    ({ task with outcome := some (TaskOutcome.err e) }, attrs,
     [Event.taskCreated, Event.proplistCreate,
      Event.taskResolvedError e, Event.taskUnref])
  else
    let r := hash_table_to_prop_list env attrs []
    let res := env.play_code r.2
    let ev :=
      [Event.taskCreated, Event.proplistCreate,
       Event.caPlayFull (g_direct_hash cancellable) r.2]
        ++ (if cancellable.isSome then [Event.cancellableConnected] else [])
        ++ [Event.proplistDestroy]
    if res ≠ CA_SUCCESS then
      let e : GError := { code := res, message := env.strerror res }
      ({ task with outcome := some (TaskOutcome.err e) }, r.1,
       ev ++ [Event.taskResolvedError e, Event.taskUnref])
    else
      let fin := on_ca_play_full_finished env env.finish_code task
      (fin.1, r.1, ev ++ fin.2)

/-- `g_task_is_valid (result, self)`: the result is a GTask whose source
object is `self`. -/
def g_task_is_valid (result : GTask) (sourceId : Nat) : Bool :=
  result.source = sourceId

/-- `gsound_context_play_full_finish` (lines 650-658):
`g_return_val_if_fail (g_task_is_valid (result, self), FALSE)` — an
invalid result returns FALSE without touching the error location — then
`g_task_propagate_boolean`: the stored boolean on success, FALSE with the
stored GError on error.  (An unresolved task cannot reach this point in
the GIO pattern; FALSE is returned for totality.) -/
def gsound_context_play_full_finish (self : GSoundContext) (result : GTask) :
    Bool × Option GError :=
  if ¬ g_task_is_valid result self.id then (false, none)
  else
    match result.outcome with
    | some (TaskOutcome.ok b) => (b, none)
    | some (TaskOutcome.err e) => (false, some e)
    | none => (false, none)

/-- The default-attribute proplist built during initialization (lines
742-751): `application.name` from the ambient process identity, and
`application.id` when a default GApplication exists; the
`ca_proplist_create` and `ca_proplist_sets` results are ignored by the
source, so the proplist simply holds whatever the `sets` calls
recorded. -/
def init_default_props (env : CAEnv) : ca_proplist :=
  let pl1 := (ca_proplist_sets env [] CA_PROP_APPLICATION_NAME env.app_name).2
  match env.app_id with
  | some appid => (ca_proplist_sets env pl1 CA_PROP_APPLICATION_ID appid).2
  | none => pl1

/-- `gsound_context_real_init` (lines 725-761): an already-set handle
returns TRUE immediately; otherwise create the `ca_context` (translated
failure returned), build the default-attribute proplist
(`init_default_props` above), apply it with
`ca_context_change_props_full`; if that fails the error is set and the
handle destroyed, but TRUE is returned regardless. -/
def gsound_context_real_init (env : CAEnv) (self : GSoundContext) :
    (Bool × Option GError) × GSoundContext × List Event :=
  if self.ca.isSome then ((true, none), self, [])
  else if env.create_code ≠ CA_SUCCESS then
    (test_return env env.create_code, self, [Event.contextCreate])
  else
    let self1 : GSoundContext := { self with ca := some env.fresh_handle }
    let pl2 := init_default_props env
    let success := env.change_props_code pl2
    let ev := [Event.contextCreate, Event.proplistCreate,
               Event.changeProps pl2, Event.proplistDestroy]
    if success ≠ CA_SUCCESS then
      ((true, some { code := success, message := env.strerror success }),
       { self1 with ca := none }, ev ++ [Event.contextDestroy])
    else
      ((true, none), self1, ev)

/-- `gsound_context_cachev` (lines 705-723). -/
def gsound_context_cachev (env : CAEnv) (_self : GSoundContext)
    (attrs : GHashTable) : (Bool × Option GError) × GHashTable × List Event :=
  if env.proplist_create_code ≠ CA_SUCCESS then
    (test_return env env.proplist_create_code, attrs, [Event.proplistCreate])
  else
    let r := hash_table_to_prop_list env attrs []
    (test_return env (env.cache_code r.2), r.1,
     [Event.proplistCreate, Event.caCacheFull r.2, Event.proplistDestroy])

/-- A proplist whose entries are exactly those the marshaler recorded:
used to state which resolution a `play_full` request reaches.  First
non-success among `ca_proplist_create`, the immediate
`ca_context_play_full` result, and the completion callback's code; all
success gives `CA_SUCCESS`. -/
def play_full_outcome_code (env : CAEnv) (pl : ca_proplist) : Int :=
  if env.proplist_create_code ≠ CA_SUCCESS then env.proplist_create_code
  else if env.play_code pl ≠ CA_SUCCESS then env.play_code pl
  else env.finish_code

/-- The single resolution a `play_full` trace ends with, for a given
effective outcome code. -/
def resolution_event (env : CAEnv) (code : Int) : Event :=
  if code = CA_SUCCESS then Event.taskResolvedOk
  else Event.taskResolvedError { code := code, message := env.strerror code }

/-- Task-resolution events (the GTask invoking the caller's completion
callback). -/
def isResolution : Event → Bool
  | Event.taskResolvedOk => true
  | Event.taskResolvedError _ => true
  | _ => false

/-- Effective result code of a synchronous operation that first creates a
proplist and then makes one main libcanberra call. -/
def first_failure (create main : Int) : Int :=
  if create ≠ CA_SUCCESS then create else main

/-- Outcome required of a synchronous operation translating the underlying
code `code`: TRUE iff success, otherwise FALSE with the code verbatim and
the `ca_strerror` message. -/
def verbatim_outcome (env : CAEnv) (r : Bool × Option GError) (code : Int) : Prop :=
  (r.1 = true ↔ code = CA_SUCCESS) ∧
  r.2 = (if code = CA_SUCCESS then none
         else some { code := code, message := env.strerror code })

/-- Concrete environment in which every external call succeeds. -/
def envAllOk : CAEnv where
  proplist_create_code := CA_SUCCESS
  sets_code := fun _ _ => CA_SUCCESS
  create_code := CA_SUCCESS
  fresh_handle := 1
  open_code := CA_SUCCESS
  set_driver_code := fun _ => CA_SUCCESS
  change_props_code := fun _ => CA_SUCCESS
  play_code := fun _ => CA_SUCCESS
  cache_code := fun _ => CA_SUCCESS
  finish_code := CA_SUCCESS
  strerror := fun _ => "Success"
  app_name := "app"
  app_id := none

/-- Concrete environment in which only `ca_context_change_props_full`
fails (with `CA_ERROR_STATE` = -3). -/
def envPropsFail : CAEnv := { envAllOk with change_props_code := fun _ => -3 }

/-- A concrete initialized context. -/
def ctx0 : GSoundContext where
  id := 7
  ca := some 1

theorem encodePairs_nil : encodePairs [] = [] := rfl

theorem encodePairs_cons (kv : String × String) (rest : List (String × String)) :
    encodePairs (kv :: rest) = some kv.1 :: some kv.2 :: encodePairs rest := by
  simp [encodePairs]

/-- On a well-formed NULL-terminated pair list whose entries the library
accepts, the marshaler succeeds and appends exactly those entries. -/
theorem var_args_all_ok (env : CAEnv) (kvs : List (String × String))
    (pl : ca_proplist) (h : ∀ kv ∈ kvs, env.sets_code kv.1 kv.2 = CA_SUCCESS) :
    var_args_to_prop_list env (encodePairs kvs ++ [none]) pl
      = (CA_SUCCESS, pl ++ kvs) := by
  induction kvs generalizing pl with
  | nil => simp [encodePairs, var_args_to_prop_list]
  | cons kv rest ih =>
    have hkv : env.sets_code kv.1 kv.2 = CA_SUCCESS := h kv (by simp)
    have hrest : ∀ kv ∈ rest, env.sets_code kv.1 kv.2 = CA_SUCCESS :=
      fun kv hmem => h kv (by simp [hmem])
    have ihs := ih (pl ++ [(kv.1, kv.2)]) hrest
    rw [encodePairs_cons]
    simp [var_args_to_prop_list, ca_proplist_sets, hkv, ihs]

/-- On an odd-length NULL-terminated list (trailing key) whose leading
pairs the library accepts, the marshaler reports `CA_ERROR_INVALID` and
the proplist holds exactly the leading pairs. -/
theorem var_args_trailing_key_invalid (env : CAEnv) (kvs : List (String × String))
    (pl : ca_proplist) (key : String)
    (h : ∀ kv ∈ kvs, env.sets_code kv.1 kv.2 = CA_SUCCESS) :
    var_args_to_prop_list env (encodePairs kvs ++ [some key, none]) pl
      = (CA_ERROR_INVALID, pl ++ kvs) := by
  induction kvs generalizing pl with
  | nil => simp [encodePairs, var_args_to_prop_list]
  | cons kv rest ih =>
    have hkv : env.sets_code kv.1 kv.2 = CA_SUCCESS := h kv (by simp)
    have hrest : ∀ kv ∈ rest, env.sets_code kv.1 kv.2 = CA_SUCCESS :=
      fun kv hmem => h kv (by simp [hmem])
    have ihs := ih (pl ++ [(kv.1, kv.2)]) hrest
    rw [encodePairs_cons]
    simp [var_args_to_prop_list, ca_proplist_sets, hkv, ihs]

/-- Whatever the library's `ca_proplist_sets` results, a trailing key
leaves the marshaled proplist exactly as it is without the trailing key:
the walk stops at the same place in both cases. -/
theorem var_args_trailing_key_irrelevant (env : CAEnv)
    (kvs : List (String × String)) (pl : ca_proplist) (key : String) :
    (var_args_to_prop_list env (encodePairs kvs ++ [some key, none]) pl).2
      = (var_args_to_prop_list env (encodePairs kvs ++ [none]) pl).2 := by
  induction kvs generalizing pl with
  | nil => simp [encodePairs, var_args_to_prop_list]
  | cons kv rest ih =>
    rw [encodePairs_cons]
    by_cases hres : env.sets_code kv.1 kv.2 = CA_SUCCESS
    · simp [var_args_to_prop_list, ca_proplist_sets, hres, ih]
    · simp [var_args_to_prop_list, ca_proplist_sets, hres]

/-- Claim C1 counterexample: in an environment where every underlying call
succeeds, the variadic operations called with the odd-length
NULL-terminated sequence `["event.id", NULL]` (a trailing key with no
value) SUCCEED — `gsound_context_set_attributes`, `play_simple` and
`cache` return TRUE with no error, and `play_full` resolves its task with
TRUE — refuting the claim that every such call fails with the
invalid-argument condition. -/
theorem odd_va_list_rejection_refuted :
    (gsound_context_set_attributes envAllOk ctx0 [some "event.id", none]).1
        = (true, none) ∧
    (gsound_context_play_simple envAllOk ctx0 none [some "event.id", none]).1
        = (true, none) ∧
    (gsound_context_cache envAllOk ctx0 [some "event.id", none]).1
        = (true, none) ∧
    (gsound_context_play_full envAllOk ctx0 none [some "event.id", none]).1.outcome
        = some (TaskOutcome.ok true) := by
  refine ⟨rfl, rfl, rfl, rfl⟩

/-- Claim C1 (amended): on an odd-length NULL-terminated variadic sequence
whose leading pairs the library accepts, the internal marshaler
`var_args_to_prop_list` does return the invalid-argument code
`CA_ERROR_INVALID`, for any trailing key string — but all four variadic
operations DISCARD that return value, so each behaves exactly as the same
call without the trailing key: the overall outcome is determined solely by
the underlying library calls. -/
theorem odd_va_list_marshaler_invalid_but_discarded (env : CAEnv)
    (self : GSoundContext) (cancellable : Option Nat)
    (pairs : List (String × String)) (key : String)
    (hok : ∀ kv ∈ pairs, env.sets_code kv.1 kv.2 = CA_SUCCESS) :
    (var_args_to_prop_list env (encodePairs pairs ++ [some key, none]) []).1
        = CA_ERROR_INVALID ∧
    gsound_context_set_attributes env self (encodePairs pairs ++ [some key, none])
        = gsound_context_set_attributes env self (encodePairs pairs ++ [none]) ∧
    gsound_context_play_simple env self cancellable (encodePairs pairs ++ [some key, none])
        = gsound_context_play_simple env self cancellable (encodePairs pairs ++ [none]) ∧
    gsound_context_cache env self (encodePairs pairs ++ [some key, none])
        = gsound_context_cache env self (encodePairs pairs ++ [none]) ∧
    gsound_context_play_full env self cancellable (encodePairs pairs ++ [some key, none])
        = gsound_context_play_full env self cancellable (encodePairs pairs ++ [none]) := by
  refine ⟨by rw [var_args_trailing_key_invalid env pairs [] key hok], ?_, ?_, ?_, ?_⟩
  · unfold gsound_context_set_attributes
    rw [var_args_trailing_key_irrelevant]
  · unfold gsound_context_play_simple
    rw [var_args_trailing_key_irrelevant]
  · unfold gsound_context_cache
    rw [var_args_trailing_key_irrelevant]
  · unfold gsound_context_play_full
    rw [var_args_trailing_key_irrelevant]

/-- Witness for the amended claim C1, at the concrete sequence
`["media.name", "x", "event.id", NULL]` in the all-success
environment. -/
theorem odd_va_list_marshaler_invalid_but_discarded_witness :
    (∀ kv ∈ [("media.name", "x")],
        envAllOk.sets_code kv.1 kv.2 = CA_SUCCESS) ∧
    ((var_args_to_prop_list envAllOk
          (encodePairs [("media.name", "x")] ++ [some "event.id", none]) []).1
        = CA_ERROR_INVALID ∧
    gsound_context_set_attributes envAllOk ctx0
          (encodePairs [("media.name", "x")] ++ [some "event.id", none])
        = gsound_context_set_attributes envAllOk ctx0
          (encodePairs [("media.name", "x")] ++ [none]) ∧
    gsound_context_play_simple envAllOk ctx0 none
          (encodePairs [("media.name", "x")] ++ [some "event.id", none])
        = gsound_context_play_simple envAllOk ctx0 none
          (encodePairs [("media.name", "x")] ++ [none]) ∧
    gsound_context_cache envAllOk ctx0
          (encodePairs [("media.name", "x")] ++ [some "event.id", none])
        = gsound_context_cache envAllOk ctx0
          (encodePairs [("media.name", "x")] ++ [none]) ∧
    gsound_context_play_full envAllOk ctx0 none
          (encodePairs [("media.name", "x")] ++ [some "event.id", none])
        = gsound_context_play_full envAllOk ctx0 none
          (encodePairs [("media.name", "x")] ++ [none])) :=
  ⟨by decide,
   odd_va_list_marshaler_invalid_but_discarded envAllOk ctx0 none
     [("media.name", "x")] "event.id" (by decide)⟩

/-- Claim C2: every `gsound_context_play_full` / `gsound_context_play_fullv`
call resolves its GTask — and hence fires the caller's completion
callback — exactly once, whatever the fate of the request: proplist
creation failure, immediate rejection of the play call, later error
completion (including cancellation-as-error), or success.  The trace
contains exactly one task-resolution event. -/
theorem play_full_resolves_exactly_once (env : CAEnv) (self : GSoundContext)
    (cancellable : Option Nat) (args : List (Option String))
    (attrs : GHashTable) :
    ((gsound_context_play_full env self cancellable args).2.filter
        isResolution).length = 1 ∧
    ((gsound_context_play_fullv env self attrs cancellable).2.2.filter
        isResolution).length = 1 := by
  constructor
  · by_cases hc : env.proplist_create_code = CA_SUCCESS
    · by_cases hp : env.play_code (var_args_to_prop_list env args []).2 = CA_SUCCESS
      · by_cases hf : env.finish_code = CA_SUCCESS <;> cases cancellable <;>
          simp [gsound_context_play_full, on_ca_play_full_finished, hc, hp, hf,
            isResolution]
      · cases cancellable <;>
          simp [gsound_context_play_full, on_ca_play_full_finished, hc, hp,
            isResolution]
    · simp [gsound_context_play_full, hc, isResolution]
  · by_cases hc : env.proplist_create_code = CA_SUCCESS
    · by_cases hp : env.play_code (hash_table_to_prop_list env attrs []).2 = CA_SUCCESS
      · by_cases hf : env.finish_code = CA_SUCCESS <;> cases cancellable <;>
          simp [gsound_context_play_fullv, on_ca_play_full_finished, hc, hp, hf,
            isResolution]
      · cases cancellable <;>
          simp [gsound_context_play_fullv, on_ca_play_full_finished, hc, hp,
            isResolution]
    · simp [gsound_context_play_fullv, hc, isResolution]

/-- Claim C3: `play_full` / `play_fullv` report no failure at the call
site (the functions return no error value; the GTask is the only error
channel).  The completion token is allocated before anything else — the
trace starts with the task creation, in particular before the request is
issued — and every failure, including the pre-transmission ones (proplist
creation failure, immediate non-success from `ca_context_play_full`), is
delivered as the one task-resolution event of the trace, carrying the
translated error exactly as a post-transmission failure would. -/
theorem play_full_failures_route_through_completion (env : CAEnv)
    (self : GSoundContext) (cancellable : Option Nat)
    (args : List (Option String)) (attrs : GHashTable) :
    (gsound_context_play_full env self cancellable args).2.head?
        = some Event.taskCreated ∧
    (gsound_context_play_full env self cancellable args).2.filter isResolution
        = [resolution_event env
            (play_full_outcome_code env (var_args_to_prop_list env args []).2)] ∧
    (gsound_context_play_fullv env self attrs cancellable).2.2.head?
        = some Event.taskCreated ∧
    (gsound_context_play_fullv env self attrs cancellable).2.2.filter isResolution
        = [resolution_event env
            (play_full_outcome_code env (hash_table_to_prop_list env attrs []).2)] := by
  refine ⟨?_, ?_, ?_, ?_⟩
  · by_cases hc : env.proplist_create_code = CA_SUCCESS
    · by_cases hp : env.play_code (var_args_to_prop_list env args []).2 = CA_SUCCESS <;>
        simp [gsound_context_play_full, hc, hp]
    · simp [gsound_context_play_full, hc]
  · by_cases hc : env.proplist_create_code = CA_SUCCESS
    · by_cases hp : env.play_code (var_args_to_prop_list env args []).2 = CA_SUCCESS
      · by_cases hf : env.finish_code = CA_SUCCESS <;> cases cancellable <;>
          simp [gsound_context_play_full, on_ca_play_full_finished,
            play_full_outcome_code, resolution_event, hc, hp, hf, isResolution]
      · cases cancellable <;>
          simp [gsound_context_play_full, on_ca_play_full_finished,
            play_full_outcome_code, resolution_event, hc, hp, isResolution]
    · simp [gsound_context_play_full, play_full_outcome_code, resolution_event,
        hc, isResolution]
  · by_cases hc : env.proplist_create_code = CA_SUCCESS
    · by_cases hp : env.play_code (hash_table_to_prop_list env attrs []).2 = CA_SUCCESS <;>
        simp [gsound_context_play_fullv, hc, hp]
    · simp [gsound_context_play_fullv, hc]
  · by_cases hc : env.proplist_create_code = CA_SUCCESS
    · by_cases hp : env.play_code (hash_table_to_prop_list env attrs []).2 = CA_SUCCESS
      · by_cases hf : env.finish_code = CA_SUCCESS <;> cases cancellable <;>
          simp [gsound_context_play_fullv, on_ca_play_full_finished,
            play_full_outcome_code, resolution_event, hc, hp, hf, isResolution]
      · cases cancellable <;>
          simp [gsound_context_play_fullv, on_ca_play_full_finished,
            play_full_outcome_code, resolution_event, hc, hp, isResolution]
    · simp [gsound_context_play_fullv, play_full_outcome_code, resolution_event,
        hc, isResolution]

/-- Claim C4: initializing an already-initialized context (one whose
`ca_context` handle is already set) is idempotent — the call returns TRUE
with no error, leaves the context unchanged, and performs no side effects
at all (empty trace: in particular no second `ca_context_create`). -/
theorem real_init_idempotent (env : CAEnv) (self : GSoundContext) (h : Nat)
    (hca : self.ca = some h) :
    gsound_context_real_init env self = ((true, none), self, []) := by
  simp [gsound_context_real_init, hca]

/-- Witness for claim C4 at a concrete initialized context. -/
theorem real_init_idempotent_witness :
    ctx0.ca = some 1 ∧
    gsound_context_real_init envAllOk ctx0 = ((true, none), ctx0, []) :=
  ⟨rfl, real_init_idempotent envAllOk ctx0 1 rfl⟩

/-- Claim C5: when the `ca_context` is created but attaching the default
attributes (`ca_context_change_props_full`) fails, initialization still
returns TRUE while the freshly created handle is destroyed and the
context's handle field is left unset, so subsequent operations see an
uninitialized handle. -/
theorem real_init_attr_failure_returns_true_handle_unset (env : CAEnv)
    (self : GSoundContext) (hca : self.ca = none)
    (hcreate : env.create_code = CA_SUCCESS)
    (hprops : env.change_props_code (init_default_props env) ≠ CA_SUCCESS) :
    (gsound_context_real_init env self).1.1 = true ∧
    (gsound_context_real_init env self).2.1.ca = none ∧
    Event.contextDestroy ∈ (gsound_context_real_init env self).2.2 := by
  simp [gsound_context_real_init, hca, hcreate, hprops]

/-- Witness for claim C5 in the environment where only
`ca_context_change_props_full` fails. -/
theorem real_init_attr_failure_returns_true_handle_unset_witness :
    (({ id := 7, ca := none } : GSoundContext).ca = none ∧
     envPropsFail.create_code = CA_SUCCESS ∧
     envPropsFail.change_props_code (init_default_props envPropsFail) ≠ CA_SUCCESS) ∧
    ((gsound_context_real_init envPropsFail { id := 7, ca := none }).1.1 = true ∧
     (gsound_context_real_init envPropsFail { id := 7, ca := none }).2.1.ca = none ∧
     Event.contextDestroy ∈
       (gsound_context_real_init envPropsFail { id := 7, ca := none }).2.2) :=
  ⟨⟨rfl, rfl, by decide⟩,
   real_init_attr_failure_returns_true_handle_unset envPropsFail
     { id := 7, ca := none } rfl rfl (by decide)⟩

/-- `test_return` translates a code verbatim: TRUE iff success, otherwise
the error carries the code and the library message. -/
theorem test_return_verbatim (env : CAEnv) (code : Int) :
    verbatim_outcome env (test_return env code) code := by
  unfold verbatim_outcome test_return
  by_cases h : code = CA_SUCCESS <;> simp [h]

/-- Claim C6: every synchronous operation returns TRUE iff the underlying
libcanberra call returned `CA_SUCCESS`; otherwise it returns FALSE with an
error whose numeric code is the library's result code verbatim and whose
message is the `ca_strerror` text for that code.  The effective code is
that of the first failing underlying call (`ca_proplist_create` first
where applicable, then the operation's main call).  No call is retried:
each operation's trace lists every external call at most once. -/
theorem sync_ops_translate_verbatim (env : CAEnv) (self : GSoundContext)
    (driver : String) (attrs : GHashTable) (cancellable : Option Nat)
    (args : List (Option String)) :
    verbatim_outcome env (gsound_context_open env self).1 env.open_code ∧
    (gsound_context_open env self).2.Nodup ∧
    verbatim_outcome env (gsound_context_set_driver env self driver).1
      (env.set_driver_code driver) ∧
    (gsound_context_set_driver env self driver).2.Nodup ∧
    verbatim_outcome env (gsound_context_set_attributes env self args).1
      (first_failure env.proplist_create_code
        (env.change_props_code (var_args_to_prop_list env args []).2)) ∧
    (gsound_context_set_attributes env self args).2.Nodup ∧
    verbatim_outcome env (gsound_context_set_attributesv env self attrs).1
      (first_failure env.proplist_create_code
        (env.change_props_code (hash_table_to_prop_list env attrs []).2)) ∧
    (gsound_context_set_attributesv env self attrs).2.2.Nodup ∧
    verbatim_outcome env (gsound_context_play_simple env self cancellable args).1
      (first_failure env.proplist_create_code
        (env.play_code (var_args_to_prop_list env args []).2)) ∧
    (gsound_context_play_simple env self cancellable args).2.Nodup ∧
    verbatim_outcome env (gsound_context_play_simplev env self attrs cancellable).1
      (first_failure env.proplist_create_code
        (env.play_code (hash_table_to_prop_list env attrs []).2)) ∧
    (gsound_context_play_simplev env self attrs cancellable).2.2.Nodup ∧
    verbatim_outcome env (gsound_context_cache env self args).1
      (first_failure env.proplist_create_code
        (env.cache_code (var_args_to_prop_list env args []).2)) ∧
    (gsound_context_cache env self args).2.Nodup ∧
    verbatim_outcome env (gsound_context_cachev env self attrs).1
      (first_failure env.proplist_create_code
        (env.cache_code (hash_table_to_prop_list env attrs []).2)) ∧
    (gsound_context_cachev env self attrs).2.2.Nodup := by
  refine ⟨test_return_verbatim env _, by simp [gsound_context_open],
    test_return_verbatim env _, by simp [gsound_context_set_driver],
    ?_, ?_, ?_, ?_, ?_, ?_, ?_, ?_, ?_, ?_, ?_, ?_⟩ <;>
    by_cases hc : env.proplist_create_code = CA_SUCCESS <;>
    cases cancellable <;>
    simp [gsound_context_set_attributes, gsound_context_set_attributesv,
      gsound_context_play_simple, gsound_context_play_simplev,
      gsound_context_cache, gsound_context_cachev,
      first_failure, hc, test_return_verbatim]

/-- When the library accepts every entry, iterating a hash table's entries
through `ca_proplist_sets` appends exactly those entries. -/
theorem foldl_sets_all_ok (env : CAEnv) (entries : List (String × String))
    (pl : ca_proplist)
    (h : ∀ kv ∈ entries, env.sets_code kv.1 kv.2 = CA_SUCCESS) :
    entries.foldl (fun acc kv => (ca_proplist_sets env acc kv.1 kv.2).2) pl
      = pl ++ entries := by
  induction entries generalizing pl with
  | nil => simp
  | cons kv rest ih =>
    have hkv : env.sets_code kv.1 kv.2 = CA_SUCCESS := h kv (by simp)
    have hrest : ∀ kv ∈ rest, env.sets_code kv.1 kv.2 = CA_SUCCESS :=
      fun kv hmem => h kv (by simp [hmem])
    have hstep : (ca_proplist_sets env pl kv.1 kv.2).2 = pl ++ [(kv.1, kv.2)] := by
      simp [ca_proplist_sets, hkv]
    rw [List.foldl_cons, hstep, ih (pl ++ [(kv.1, kv.2)]) hrest]
    simp

/-- Claim C7: for a valid (even-length, NULL-terminated) variadic sequence
with unique keys whose entries the library accepts, the proplist built by
the variadic marshaling path holds exactly the same key-to-value entries
as the proplist built by the hash-table marshaling path from the
corresponding mapping, whatever iteration order the table presents them
in (the two entry lists are permutations of one another). -/
theorem va_list_and_hash_table_marshal_equiv (env : CAEnv)
    (kvs : List (String × String)) (ht : GHashTable)
    (_hkeys : (kvs.map Prod.fst).Nodup)
    (hperm : ht.entries.Perm kvs)
    (hok : ∀ kv ∈ kvs, env.sets_code kv.1 kv.2 = CA_SUCCESS) :
    ((var_args_to_prop_list env (encodePairs kvs ++ [none]) []).2).Perm
      ((hash_table_to_prop_list env ht []).2) := by
  have hokh : ∀ kv ∈ ht.entries, env.sets_code kv.1 kv.2 = CA_SUCCESS :=
    fun kv hmem => hok kv (hperm.mem_iff.mp hmem)
  rw [var_args_all_ok env kvs [] hok]
  simp [hash_table_to_prop_list, foldl_sets_all_ok env ht.entries [] hokh]
  exact hperm.symm

/-- Witness for claim C7 on a concrete two-entry attribute set presented
to the hash-table path in the opposite order. -/
theorem va_list_and_hash_table_marshal_equiv_witness :
    (([("media.name", "a"), ("event.id", "b")].map Prod.fst).Nodup ∧
     (GHashTable.mk [("event.id", "b"), ("media.name", "a")] 1).entries.Perm
       [("media.name", "a"), ("event.id", "b")] ∧
     (∀ kv ∈ [("media.name", "a"), ("event.id", "b")],
        envAllOk.sets_code kv.1 kv.2 = CA_SUCCESS)) ∧
    ((var_args_to_prop_list envAllOk
        (encodePairs [("media.name", "a"), ("event.id", "b")] ++ [none]) []).2).Perm
      ((hash_table_to_prop_list envAllOk
        (GHashTable.mk [("event.id", "b"), ("media.name", "a")] 1) []).2) :=
  ⟨⟨by decide, by decide, by decide⟩,
   va_list_and_hash_table_marshal_equiv envAllOk
     [("media.name", "a"), ("event.id", "b")]
     (GHashTable.mk [("event.id", "b"), ("media.name", "a")] 1)
     (by decide) (by decide) (by decide)⟩

/-- Claim C8: every issued play request (the four play operations; a
request is issued whenever `ca_proplist_create` succeeds) is tagged with
the cancellation identity `g_direct_hash cancellable` — a deterministic
function of the cancellation object's pointer identity, which is 0 (the
null identity) when no cancellable is supplied — and the cancellation
listener is connected iff a cancellable is supplied; the listener
forwards the signal to `ca_context_cancel` with the same derived
identity. -/
theorem play_requests_tagged_with_cancellable_hash (env : CAEnv)
    (self : GSoundContext) (cancellable : Option Nat)
    (args : List (Option String)) (attrs : GHashTable) (ccObj : Nat)
    (hcreate : env.proplist_create_code = CA_SUCCESS) :
    g_direct_hash none = 0 ∧
    on_cancellable_cancelled self ccObj
      = [Event.caCancel (g_direct_hash (some ccObj))] ∧
    Event.caPlayFull (g_direct_hash cancellable) (var_args_to_prop_list env args []).2
      ∈ (gsound_context_play_simple env self cancellable args).2 ∧
    (Event.cancellableConnected ∈ (gsound_context_play_simple env self cancellable args).2
      ↔ cancellable.isSome) ∧
    Event.caPlayFull (g_direct_hash cancellable) (hash_table_to_prop_list env attrs []).2
      ∈ (gsound_context_play_simplev env self attrs cancellable).2.2 ∧
    (Event.cancellableConnected ∈ (gsound_context_play_simplev env self attrs cancellable).2.2
      ↔ cancellable.isSome) ∧
    Event.caPlayFull (g_direct_hash cancellable) (var_args_to_prop_list env args []).2
      ∈ (gsound_context_play_full env self cancellable args).2 ∧
    (Event.cancellableConnected ∈ (gsound_context_play_full env self cancellable args).2
      ↔ cancellable.isSome) ∧
    Event.caPlayFull (g_direct_hash cancellable) (hash_table_to_prop_list env attrs []).2
      ∈ (gsound_context_play_fullv env self attrs cancellable).2.2 ∧
    (Event.cancellableConnected ∈ (gsound_context_play_fullv env self attrs cancellable).2.2
      ↔ cancellable.isSome) := by
  refine ⟨rfl, rfl, ?_, ?_, ?_, ?_, ?_, ?_, ?_, ?_⟩ <;>
    by_cases hp : env.play_code (var_args_to_prop_list env args []).2 = CA_SUCCESS <;>
    by_cases hph : env.play_code (hash_table_to_prop_list env attrs []).2 = CA_SUCCESS <;>
    by_cases hf : env.finish_code = CA_SUCCESS <;>
    cases cancellable <;>
    simp [gsound_context_play_simple, gsound_context_play_simplev,
      gsound_context_play_full, gsound_context_play_fullv,
      on_ca_play_full_finished, hcreate, hp, hph, hf]

/-- Witness for claim C8 with a concrete cancellable of pointer value 5
in the all-success environment. -/
theorem play_requests_tagged_with_cancellable_hash_witness :
    envAllOk.proplist_create_code = CA_SUCCESS ∧
    (g_direct_hash none = 0 ∧
     on_cancellable_cancelled ctx0 9
       = [Event.caCancel (g_direct_hash (some 9))] ∧
     Event.caPlayFull (g_direct_hash (some 5))
         (var_args_to_prop_list envAllOk [none] []).2
       ∈ (gsound_context_play_simple envAllOk ctx0 (some 5) [none]).2 ∧
     (Event.cancellableConnected
         ∈ (gsound_context_play_simple envAllOk ctx0 (some 5) [none]).2
       ↔ (some 5 : Option Nat).isSome) ∧
     Event.caPlayFull (g_direct_hash (some 5))
         (hash_table_to_prop_list envAllOk (GHashTable.mk [] 1) []).2
       ∈ (gsound_context_play_simplev envAllOk ctx0 (GHashTable.mk [] 1) (some 5)).2.2 ∧
     (Event.cancellableConnected
         ∈ (gsound_context_play_simplev envAllOk ctx0 (GHashTable.mk [] 1) (some 5)).2.2
       ↔ (some 5 : Option Nat).isSome) ∧
     Event.caPlayFull (g_direct_hash (some 5))
         (var_args_to_prop_list envAllOk [none] []).2
       ∈ (gsound_context_play_full envAllOk ctx0 (some 5) [none]).2 ∧
     (Event.cancellableConnected
         ∈ (gsound_context_play_full envAllOk ctx0 (some 5) [none]).2
       ↔ (some 5 : Option Nat).isSome) ∧
     Event.caPlayFull (g_direct_hash (some 5))
         (hash_table_to_prop_list envAllOk (GHashTable.mk [] 1) []).2
       ∈ (gsound_context_play_fullv envAllOk ctx0 (GHashTable.mk [] 1) (some 5)).2.2 ∧
     (Event.cancellableConnected
         ∈ (gsound_context_play_fullv envAllOk ctx0 (GHashTable.mk [] 1) (some 5)).2.2
       ↔ (some 5 : Option Nat).isSome)) :=
  ⟨rfl,
   play_requests_tagged_with_cancellable_hash envAllOk ctx0 (some 5) [none]
     (GHashTable.mk [] 1) 9 rfl⟩

/-- Claim C9: `gsound_context_play_full_finish` called with a result whose
source is a different context returns FALSE without propagating anything;
called on the task a `play_full` on the same context produced, it returns
exactly the translated outcome of that request — TRUE iff the request
resolved successfully, otherwise FALSE propagating the stored error
(code and message verbatim). -/
theorem play_full_finish_validates_source (env : CAEnv)
    (self other : GSoundContext) (cancellable : Option Nat)
    (args : List (Option String)) (hother : other.id ≠ self.id) :
    gsound_context_play_full_finish other
        (gsound_context_play_full env self cancellable args).1 = (false, none) ∧
    gsound_context_play_full_finish self
        (gsound_context_play_full env self cancellable args).1
      = test_return env
          (play_full_outcome_code env (var_args_to_prop_list env args []).2) ∧
    ((gsound_context_play_full_finish self
        (gsound_context_play_full env self cancellable args).1).1 = true
      ↔ play_full_outcome_code env (var_args_to_prop_list env args []).2
          = CA_SUCCESS) := by
  refine ⟨?_, ?_, ?_⟩ <;>
    by_cases hc : env.proplist_create_code = CA_SUCCESS <;>
    by_cases hp : env.play_code (var_args_to_prop_list env args []).2 = CA_SUCCESS <;>
    by_cases hf : env.finish_code = CA_SUCCESS <;>
    cases cancellable <;>
    simp [gsound_context_play_full, gsound_context_play_full_finish,
      on_ca_play_full_finished, g_task_is_valid, play_full_outcome_code,
      test_return, hc, hp, hf, Ne.symm hother]

/-- Witness for claim C9: a context with id 8 rejects the result produced
by a `play_full` on the context with id 7. -/
theorem play_full_finish_validates_source_witness :
    (GSoundContext.mk 8 none).id ≠ ctx0.id ∧
    (gsound_context_play_full_finish (GSoundContext.mk 8 none)
        (gsound_context_play_full envAllOk ctx0 none [none]).1 = (false, none) ∧
     gsound_context_play_full_finish ctx0
        (gsound_context_play_full envAllOk ctx0 none [none]).1
       = test_return envAllOk
           (play_full_outcome_code envAllOk (var_args_to_prop_list envAllOk [none] []).2) ∧
     ((gsound_context_play_full_finish ctx0
        (gsound_context_play_full envAllOk ctx0 none [none]).1).1 = true
       ↔ play_full_outcome_code envAllOk (var_args_to_prop_list envAllOk [none] []).2
           = CA_SUCCESS)) :=
  ⟨by decide,
   play_full_finish_validates_source envAllOk ctx0 (GSoundContext.mk 8 none)
     none [none] (by decide)⟩

/-- Claim C10: none of the hash-table-based operations modifies the
caller's attribute table: `hash_table_to_prop_list` only iterates it
(its reference count is bumped and restored), and each operation returns
the table exactly as it received it, entries and refcount alike. -/
theorem hash_table_ops_preserve_table (env : CAEnv) (self : GSoundContext)
    (attrs : GHashTable) (cancellable : Option Nat) :
    (hash_table_to_prop_list env attrs []).1 = attrs ∧
    (gsound_context_set_attributesv env self attrs).2.1 = attrs ∧
    (gsound_context_play_simplev env self attrs cancellable).2.1 = attrs ∧
    (gsound_context_play_fullv env self attrs cancellable).2.1 = attrs ∧
    (gsound_context_cachev env self attrs).2.1 = attrs := by
  have hht : (hash_table_to_prop_list env attrs []).1 = attrs := by
    cases attrs with
    | mk e r => simp [hash_table_to_prop_list]
  refine ⟨hht, ?_, ?_, ?_, ?_⟩ <;>
    by_cases hc : env.proplist_create_code = CA_SUCCESS <;>
    by_cases hp : env.play_code (hash_table_to_prop_list env attrs []).2 = CA_SUCCESS <;>
    by_cases hf : env.finish_code = CA_SUCCESS <;>
    cases cancellable <;>
    simp [gsound_context_set_attributesv, gsound_context_play_simplev,
      gsound_context_play_fullv, gsound_context_cachev,
      on_ca_play_full_finished, hc, hp, hf, hht]
